import Mathlib

/-!
Verification of the low-level database layer (`anvio/db.py`) and the
palindrome hit-parsing loop (`anvio/sequencefeatures.py`) of the anvio
repository, as a shallow embedding in Lean.

The embedding models the SQLite-backed store at the level the Python code
observes it: a store is a list of named tables, a table is an ordered
column-name/column-type schema plus a list of rows, and a cell value is
NULL, an INTEGER, or TEXT (the code sets `text_factory = str`, so TEXT
comes back as a plain string).  A live connection is a pair of stores:
the last committed (on-disk) contents and the current (in-memory,
possibly uncommitted) contents; `conn.commit()` copies current over
committed.  Python exceptions are modelled with `Except`; mutating
methods return the post-call connection state even on error, exactly as
a raised exception leaves the Python object.
-/

set_option maxRecDepth 4000

/-- A SQLite cell value as seen through the Python connection. -/
inductive Value where
  | null : Value
  | int : Int → Value
  | text : String → Value
  deriving DecidableEq, Repr

/-- Python `str(...)` on a cell value (`str(None) = "None"`). -/
def pyStr : Value → String
  | Value.null => "None"
  | Value.int i => toString i
  | Value.text s => s

/-- Python `int(...)` applied to the digits of a string (no sign, no blanks). -/
def py_int_core (cs : List Char) : Option Int :=
  match cs with
  | [] => none
  | _ =>
    if cs.all (fun c => c.isDigit) then
      some (Int.ofNat (cs.foldl (fun a c => a * 10 + (c.toNat - 48)) 0))
    else
      none

/-- Python `int(...)` applied to a string: surrounding whitespace is ignored,
an optional single sign is allowed, and the remainder must be all digits;
anything else raises `ValueError` (here: `none`). -/
def py_int_of_string (s : String) : Option Int :=
  let t := ((s.data.dropWhile (fun c => c.isWhitespace)).reverse.dropWhile
      (fun c => c.isWhitespace)).reverse
  match t with
  | '-' :: rest => (py_int_core rest).map (fun i => -i)
  | '+' :: rest => py_int_core rest
  | _ => py_int_core t

/-- A row of a table. -/
abbrev Row := List Value

/-- A table: ordered column names, ordered column types, rows. -/
structure Table where
  fields : List String
  types : List String
  rows : List Row
  deriving DecidableEq, Repr

/-- The contents of one database file: its named tables. -/
abbrev Store := List (String × Table)

/-- Look a table up by name. -/
def Store.getTable (st : Store) (n : String) : Option Table :=
  match st.find? (fun p => decide (p.1 = n)) with
  | some p => some p.2
  | none => none

/-- Replace the table named `n`. -/
def Store.setTable (st : Store) (n : String) (t : Table) : Store :=
  st.map (fun p => if p.1 = n then (n, t) else p)

/-- The Python exceptions the layer can raise: anvio's `ConfigError`,
an error reported by the sqlite backend, and Python's own `IndexError` /
`ValueError` from list indexing and `list.remove`. -/
inductive PyErr where
  | configError
  | backendError
  | indexError
  | valueError
  deriving DecidableEq, Repr

/-- The state of a live connection: last committed (on-disk) contents and
the current (in-memory) contents seen by the cursor. -/
structure DBState where
  committed : Store
  current : Store
  deriving DecidableEq, Repr

/-- `DB.commit` (`self.conn.commit()`): current contents become durable. -/
def db_commit (s : DBState) : DBState :=
  { committed := s.current, current := s.current }

/-- `DB._exec`: run one statement on the current contents, then commit
(db.py lines 147-154 always call `self.commit()`).  A backend error leaves
the state untouched and propagates. -/
def db_exec (s : DBState) (stmt : Store → Except PyErr Store) :
    Except PyErr Unit × DBState :=
  match stmt s.current with
  | Except.error e => (Except.error e, s)
  | Except.ok cur => (Except.ok (), { committed := cur, current := cur })

/-- `DB._exec_many`: run a bulk statement on the current contents.  Unlike
`_exec` it does NOT commit (db.py lines 157-158). -/
def db_exec_many (s : DBState) (stmt : Store → Except PyErr Store) :
    Except PyErr Unit × DBState :=
  match stmt s.current with
  | Except.error e => (Except.error e, s)
  | Except.ok cur => (Except.ok (), { committed := s.committed, current := cur })

/-- `CREATE TABLE name (...)`: the backend rejects a duplicate table name. -/
def stmt_create_table (n : String) (fields types : List String)
    (st : Store) : Except PyErr Store :=
  match st.getTable n with
  | some _ => Except.error PyErr.backendError
  | none => Except.ok (st ++ [(n, ⟨fields, types, []⟩)])

/-- `DROP TABLE IF EXISTS name`: never an error. -/
def stmt_drop_table (n : String) (st : Store) : Except PyErr Store :=
  Except.ok (st.filter (fun p => decide (p.1 ≠ n)))

/-- Does row `r` carry key `key` in its first column? -/
def self_key_matches (key : String) (r : Row) : Bool :=
  decide (r.head? = some (Value.text key))

/-- `INSERT INTO self VALUES(?,?)`. -/
def stmt_insert_self (key : String) (value : Value) (st : Store) :
    Except PyErr Store :=
  match st.getTable "self" with
  | none => Except.error PyErr.backendError
  | some t =>
      Except.ok (st.setTable "self"
        { t with rows := t.rows ++ [[Value.text key, value]] })

/-- `DELETE FROM self WHERE key="<key>"`. -/
def stmt_delete_self_key (key : String) (st : Store) : Except PyErr Store :=
  match st.getTable "self" with
  | none => Except.error PyErr.backendError
  | some t =>
      Except.ok (st.setTable "self"
        { t with rows := t.rows.filter (fun r => ! self_key_matches key r) })

/-- `SELECT value FROM self WHERE key='<key>'`. -/
def stmt_select_self_value (key : String) (st : Store) :
    Except PyErr (List Value) :=
  match st.getTable "self" with
  | none => Except.error PyErr.backendError
  | some t =>
      Except.ok ((t.rows.filter (self_key_matches key)).map
        (fun r => r.getD 1 Value.null))

/-- `DELETE FROM name` (truncate). -/
def stmt_delete_all (n : String) (st : Store) : Except PyErr Store :=
  match st.getTable n with
  | none => Except.error PyErr.backendError
  | some t => Except.ok (st.setTable n { t with rows := [] })

/-- `INSERT INTO name VALUES(?,...,?)` executed over a batch: the number of
placeholders is the width of the first row (db.py line 115); the statement
fails if it disagrees with the table's column count or with any row. -/
def stmt_insert_many (n : String) (data : List Row) (st : Store) :
    Except PyErr Store :=
  match st.getTable n with
  | none => Except.error PyErr.backendError
  | some t =>
      let w := (data.headD []).length
      if t.fields.length ≠ w then Except.error PyErr.backendError
      else if data.all (fun r => decide (r.length = w)) then
        Except.ok (st.setTable n { t with rows := t.rows ++ data })
      else Except.error PyErr.backendError

/-- `DB.create_table` (db.py lines 76-82): a field/type count mismatch
raises `ConfigError` before anything reaches the backend; otherwise the
schema statement is executed and committed. -/
def create_table (s : DBState) (table_name : String)
    (fields types : List String) : Except PyErr Unit × DBState :=
  if fields.length ≠ types.length then (Except.error PyErr.configError, s)
  else
    match db_exec s (stmt_create_table table_name fields types) with
    | (Except.error e, s1) => (Except.error e, s1)
    | (Except.ok _, s1) => (Except.ok (), db_commit s1)

/-- `DB.drop_table` (db.py lines 72-73). -/
def drop_table (s : DBState) (table_name : String) :
    Except PyErr Unit × DBState :=
  db_exec s (stmt_drop_table table_name)

/-- `DB.set_meta_value` (db.py lines 90-92): insert into `self`, commit. -/
def set_meta_value (s : DBState) (key : String) (value : Value) :
    Except PyErr Unit × DBState :=
  match db_exec s (stmt_insert_self key value) with
  | (Except.error e, s1) => (Except.error e, s1)
  | (Except.ok _, s1) => (Except.ok (), db_commit s1)

/-- `DB.remove_meta_key_value_pair` (db.py lines 95-97). -/
def remove_meta_key_value_pair (s : DBState) (key : String) :
    Except PyErr Unit × DBState :=
  match db_exec s (stmt_delete_self_key key) with
  | (Except.error e, s1) => (Except.error e, s1)
  | (Except.ok _, s1) => (Except.ok (), db_commit s1)

/-- `DB.update_meta_value` (db.py lines 100-102): delete all rows with the
key, then insert the new pair. -/
def update_meta_value (s : DBState) (key : String) (value : Value) :
    Except PyErr Unit × DBState :=
  match remove_meta_key_value_pair s key with
  | (Except.error e, s1) => (Except.error e, s1)
  | (Except.ok _, s1) => set_meta_value s1 key value

/-- `DB.set_version` (db.py lines 85-87). -/
def set_version (s : DBState) (version : Value) :
    Except PyErr Unit × DBState :=
  match set_meta_value s "version" version with
  | (Except.error e, s1) => (Except.error e, s1)
  | (Except.ok _, s1) => (Except.ok (), db_commit s1)

/-- `DB.get_meta_value` (db.py lines 118-135): first matching row's value,
`None` passed through, otherwise coerced by `int(...)` when that parses. -/
def get_meta_value (st : Store) (key : String) : Except PyErr Value :=
  match stmt_select_self_value key st with
  | Except.error e => Except.error e
  | Except.ok [] => Except.error PyErr.configError
  | Except.ok (v :: _) =>
      match v with
      | Value.null => Except.ok Value.null
      | Value.int i => Except.ok (Value.int i)
      | Value.text t =>
          match py_int_of_string t with
          | some i => Except.ok (Value.int i)
          | none => Except.ok (Value.text t)

/-- `DB.get_version` (db.py lines 61-65): any failure of
`get_meta_value('version')` becomes a `ConfigError`. -/
def get_version (st : Store) : Except PyErr Value :=
  match get_meta_value st "version" with
  | Except.ok v => Except.ok v
  | Except.error _ => Except.error PyErr.configError

/-- A successfully opened handle: its connection state and the `version`
attribute set by `DB.__init__`. -/
structure DBHandle where
  state : DBState
  version : Value
  deriving DecidableEq, Repr

/-- `DB.__init__` with `new_database=False` (db.py lines 27-58): the store
on disk is read, its recorded version is fetched, and a textual mismatch
with the client's version raises `ConfigError` unless `ignore_version` is
set; on success `self.version` holds the stored value. -/
def db_open_existing (disk : Store) (client_version : Value)
    (ignore_version : Bool) : Except PyErr DBHandle :=
  match get_version disk with
  | Except.error e => Except.error e
  | Except.ok v =>
      if pyStr v ≠ pyStr client_version ∧ ignore_version = false then
        Except.error PyErr.configError
      else
        Except.ok ⟨⟨disk, disk⟩, v⟩

/-- `DB.get_all_rows_from_table` (db.py lines 161-163), viewed on the
current contents. -/
def get_all_rows_from_table (st : Store) (table : String) :
    Except PyErr (List Row) :=
  match st.getTable table with
  | none => Except.error PyErr.backendError
  | some t => Except.ok t.rows

/-- `DB.copy_paste` (db.py lines 105-115): open the donor read-only with
version checking off, read all its rows; an empty donor is a no-op;
otherwise truncate the destination table via `_exec` (which commits) and
bulk-insert the donor rows via `_exec_many` (which does not commit). -/
def copy_paste (s : DBState) (table_name : String) (source_disk : Store) :
    Except PyErr Unit × DBState :=
  match db_open_existing source_disk Value.null true with
  | Except.error e => (Except.error e, s)
  | Except.ok src =>
      match get_all_rows_from_table src.state.current table_name with
      | Except.error e => (Except.error e, s)
      | Except.ok data =>
          if data.length = 0 then (Except.ok (), s)
          else
            match db_exec s (stmt_delete_all table_name) with
            | (Except.error e, s1) => (Except.error e, s1)
            | (Except.ok _, s1) => db_exec_many s1 (stmt_insert_many table_name data)

/-- Claim C6: `create_table` with `len(fields) != len(types)` raises
`ConfigError` before any backend statement, leaving the connection state
exactly unchanged; with equal lengths (and the table name fresh, since a
duplicate surfaces as a backend error instead) it creates the table and
commits, so the new table is present in both the current and the
committed contents. -/
theorem claim_C6 :
    (∀ (s : DBState) (n : String) (fields types : List String),
        fields.length ≠ types.length →
        create_table s n fields types = (Except.error PyErr.configError, s)) ∧
    (∀ (s : DBState) (n : String) (fields types : List String),
        fields.length = types.length →
        s.current.getTable n = none →
        create_table s n fields types =
          (Except.ok (),
            { committed := s.current ++ [(n, ⟨fields, types, []⟩)],
              current := s.current ++ [(n, ⟨fields, types, []⟩)] })) := by
  constructor
  · intro s n fields types h
    simp [create_table, h]
  · intro s n fields types h hfresh
    simp [create_table, h, db_exec, stmt_create_table, hfresh, db_commit]

/-- Witness for claim C6 at concrete inputs. -/
theorem claim_C6_witness :
    create_table ⟨[], []⟩ "t" ["a"] [] = (Except.error PyErr.configError, ⟨[], []⟩) ∧
    create_table ⟨[], []⟩ "t" ["a"] ["text"] =
      (Except.ok (),
        ⟨[("t", ⟨["a"], ["text"], []⟩)], [("t", ⟨["a"], ["text"], []⟩)]⟩) :=
  ⟨claim_C6.1 ⟨[], []⟩ "t" ["a"] [] (by decide),
   claim_C6.2 ⟨[], []⟩ "t" ["a"] ["text"] (by decide) (by rfl)⟩

/-- Claim C3: opening an existing store whose recorded `version` differs
textually from the client's version fails with `ConfigError` when the
override flag is off, and succeeds when it is on, with the handle's
`version` attribute left at the stored (old) value. -/
theorem claim_C3 (disk : Store) (client v : Value)
    (hv : get_version disk = Except.ok v)
    (hne : pyStr v ≠ pyStr client) :
    db_open_existing disk client false = Except.error PyErr.configError ∧
    db_open_existing disk client true = Except.ok ⟨⟨disk, disk⟩, v⟩ := by
  unfold db_open_existing
  rw [hv]
  simp [hne]

/-- Witness for claim C3: a store stamped with version `"5"` opened by a
client at version `"6"`. -/
theorem claim_C3_witness :
    db_open_existing
      [("self", ⟨["key", "value"], ["text", "text"],
        [[Value.text "version", Value.text "5"]]⟩)]
      (Value.text "6") false = Except.error PyErr.configError ∧
    db_open_existing
      [("self", ⟨["key", "value"], ["text", "text"],
        [[Value.text "version", Value.text "5"]]⟩)]
      (Value.text "6") true =
      Except.ok ⟨⟨[("self", ⟨["key", "value"], ["text", "text"],
        [[Value.text "version", Value.text "5"]]⟩)],
        [("self", ⟨["key", "value"], ["text", "text"],
          [[Value.text "version", Value.text "5"]]⟩)]⟩, Value.int 5⟩ :=
  claim_C3
    [("self", ⟨["key", "value"], ["text", "text"],
      [[Value.text "version", Value.text "5"]]⟩)]
    (Value.text "6") (Value.int 5) (by rfl) (by decide)

/-- Claim C7: `get_meta_value` takes the first row of `self` matching the
key and coerces its value: a stored NULL comes back as NULL, a stored
integer stays an integer, text that `int(...)` accepts becomes that
integer, any other text is returned raw; with no matching row it raises
`ConfigError`. -/
theorem claim_C7 (st : Store) (t : Table) (key : String)
    (hself : st.getTable "self" = some t) :
    (t.rows.filter (self_key_matches key) = [] →
      get_meta_value st key = Except.error PyErr.configError) ∧
    (∀ r rest, t.rows.filter (self_key_matches key) = r :: rest →
      ((r.getD 1 Value.null = Value.null →
          get_meta_value st key = Except.ok Value.null) ∧
       (∀ i, r.getD 1 Value.null = Value.int i →
          get_meta_value st key = Except.ok (Value.int i)) ∧
       (∀ u i, r.getD 1 Value.null = Value.text u → py_int_of_string u = some i →
          get_meta_value st key = Except.ok (Value.int i)) ∧
       (∀ u, r.getD 1 Value.null = Value.text u → py_int_of_string u = none →
          get_meta_value st key = Except.ok (Value.text u)))) := by
  constructor
  · intro hfilt
    simp [get_meta_value, stmt_select_self_value, hself, hfilt]
  · intro r rest hfilt
    refine ⟨?_, ?_, ?_, ?_⟩
    · intro hval
      rw [List.getD_eq_getElem?_getD] at hval
      simp [get_meta_value, stmt_select_self_value, hself, hfilt, hval]
    · intro i hval
      rw [List.getD_eq_getElem?_getD] at hval
      simp [get_meta_value, stmt_select_self_value, hself, hfilt, hval]
    · intro u i hval hparse
      rw [List.getD_eq_getElem?_getD] at hval
      simp [get_meta_value, stmt_select_self_value, hself, hfilt, hval, hparse]
    · intro u hval hparse
      rw [List.getD_eq_getElem?_getD] at hval
      simp [get_meta_value, stmt_select_self_value, hself, hfilt, hval, hparse]

/-- Witness for claim C7: on a `self` table holding `version -> "5"`,
`note -> NULL` and `name -> "abc"`, the getter returns the integer `5`,
NULL, and the raw text, and a missing key raises `ConfigError`. -/
theorem claim_C7_witness :
    get_meta_value
      [("self", ⟨["key", "value"], ["text", "text"],
        [[Value.text "version", Value.text "5"],
         [Value.text "note", Value.null],
         [Value.text "name", Value.text "abc"]]⟩)] "version" =
      Except.ok (Value.int 5) ∧
    get_meta_value
      [("self", ⟨["key", "value"], ["text", "text"],
        [[Value.text "version", Value.text "5"],
         [Value.text "note", Value.null],
         [Value.text "name", Value.text "abc"]]⟩)] "note" =
      Except.ok Value.null ∧
    get_meta_value
      [("self", ⟨["key", "value"], ["text", "text"],
        [[Value.text "version", Value.text "5"],
         [Value.text "note", Value.null],
         [Value.text "name", Value.text "abc"]]⟩)] "name" =
      Except.ok (Value.text "abc") ∧
    get_meta_value
      [("self", ⟨["key", "value"], ["text", "text"],
        [[Value.text "version", Value.text "5"],
         [Value.text "note", Value.null],
         [Value.text "name", Value.text "abc"]]⟩)] "missing" =
      Except.error PyErr.configError :=
  ⟨((claim_C7 _ _ "version" (by rfl)).2 [Value.text "version", Value.text "5"] []
      (by rfl)).2.2.1 "5" 5 (by rfl) (by rfl),
   ((claim_C7 _ _ "note" (by rfl)).2 [Value.text "note", Value.null] []
      (by rfl)).1 (by rfl),
   ((claim_C7 _ _ "name" (by rfl)).2 [Value.text "name", Value.text "abc"] []
      (by rfl)).2.2.2 "abc" (by rfl) (by rfl),
   (claim_C7 _ _ "missing" (by rfl)).1 (by rfl)⟩

/-- The rows of the metadata table `self` carrying `key`. -/
def self_rows_with (st : Store) (key : String) : List Row :=
  match st.getTable "self" with
  | none => []
  | some t => t.rows.filter (self_key_matches key)

/-- Call `DB.update_meta_value` once per element of `vals`, left to right,
stopping at the first exception: N successive client calls. -/
def update_meta_value_times (key : String) :
    DBState → List Value → Except PyErr Unit × DBState
  | s, [] => (Except.ok (), s)
  | s, v :: rest =>
    match update_meta_value s key v with
    | (Except.error e, s1) => (Except.error e, s1)
    | (Except.ok _, s1) => update_meta_value_times key s1 rest

theorem getTable_setTable (st : Store) (n : String) (t t0 : Table)
    (h : st.getTable n = some t0) : (st.setTable n t).getTable n = some t := by
  induction st with
  | nil => simp [Store.getTable] at h
  | cons p rest ih =>
    by_cases hp : p.1 = n
    · simp [Store.getTable, Store.setTable, List.find?, hp]
    · have h' : Store.getTable rest n = some t0 := by
        simpa [Store.getTable, List.find?, hp] using h
      have ih' := ih h'
      simpa [Store.getTable, Store.setTable, List.find?, hp] using ih'

/-- One successful `update_meta_value`: the `self` rows carrying the key are
deleted and the new pair is appended, everything committed. -/
theorem update_meta_value_spec (s : DBState) (key : String) (v : Value) (t : Table)
    (h : s.current.getTable "self" = some t) :
    update_meta_value s key v =
      (Except.ok (),
        ⟨(s.current.setTable "self"
            ⟨t.fields, t.types, t.rows.filter (fun r => ! self_key_matches key r)⟩).setTable
              "self"
            ⟨t.fields, t.types,
              t.rows.filter (fun r => ! self_key_matches key r) ++ [[Value.text key, v]]⟩,
         (s.current.setTable "self"
            ⟨t.fields, t.types, t.rows.filter (fun r => ! self_key_matches key r)⟩).setTable
              "self"
            ⟨t.fields, t.types,
              t.rows.filter (fun r => ! self_key_matches key r) ++ [[Value.text key, v]]⟩⟩) := by
  have h1 : (s.current.setTable "self"
      ⟨t.fields, t.types, t.rows.filter (fun r => ! self_key_matches key r)⟩).getTable
        "self" =
      some ⟨t.fields, t.types, t.rows.filter (fun r => ! self_key_matches key r)⟩ :=
    getTable_setTable _ _ _ _ h
  simp only [update_meta_value, remove_meta_key_value_pair, set_meta_value,
    db_exec, db_commit, stmt_delete_self_key, stmt_insert_self, h, h1]

/-- After deleting the key's rows and appending the new pair, the key's
rows are exactly the new pair. -/
theorem filter_after_update (key : String) (rows : List Row) (v : Value) :
    (rows.filter (fun r => ! self_key_matches key r)
        ++ [[Value.text key, v]]).filter (self_key_matches key) =
      [[Value.text key, v]] := by
  rw [List.filter_append, List.filter_filter]
  simp [self_key_matches]

/-- One successful `update_meta_value`, existential form: the call returns
ok, and afterwards the `self` table holds the old rows without the key,
plus the freshly appended pair. -/
theorem update_meta_value_spec_ex (s : DBState) (key : String) (v : Value) (t : Table)
    (h : s.current.getTable "self" = some t) :
    ∃ s1 : DBState, update_meta_value s key v = (Except.ok (), s1) ∧
      s1.current.getTable "self" =
        some ⟨t.fields, t.types,
          t.rows.filter (fun r => ! self_key_matches key r) ++ [[Value.text key, v]]⟩ :=
  ⟨_, update_meta_value_spec s key v t h,
    getTable_setTable _ _ _ _ (getTable_setTable _ _ _ _ h)⟩

/-- Claim C8: calling `update_meta_value` N >= 1 times with the same key
(any values) leaves exactly one row with that key in `self`, holding the
last value passed, no matter how many (duplicate) rows for the key the
table held before. -/
theorem claim_C8 (s : DBState) (key : String) (vals : List Value) (t : Table)
    (hself : s.current.getTable "self" = some t) (hne : vals ≠ []) :
    ∃ s2, update_meta_value_times key s vals = (Except.ok (), s2) ∧
      self_rows_with s2.current key = [[Value.text key, vals.getLastD Value.null]] := by
  induction vals generalizing s t with
  | nil => exact absurd rfl hne
  | cons v rest ih =>
    obtain ⟨s1, hrun1, hself1⟩ := update_meta_value_spec_ex s key v t hself
    cases rest with
    | nil =>
      refine ⟨s1, ?_, ?_⟩
      · simp only [update_meta_value_times, hrun1]
      · simp only [self_rows_with, hself1, List.getLastD]
        exact filter_after_update key t.rows v
    | cons w ws =>
      obtain ⟨s2, hrun, hrows⟩ := ih s1 _ hself1 (by simp)
      refine ⟨s2, ?_, ?_⟩
      · simp only [update_meta_value_times, hrun1]
        exact hrun
      · simpa [List.getLastD] using hrows

/-- Witness for claim C8: two successive updates of key `k` on a `self`
table that starts with two duplicate rows for `k` leave exactly the one
row `(k, "2")`. -/
theorem claim_C8_witness :
    ∃ s2, update_meta_value_times "k"
        ⟨[("self", ⟨["key", "value"], ["text", "text"],
            [[Value.text "k", Value.text "x"], [Value.text "k", Value.text "y"]]⟩)],
         [("self", ⟨["key", "value"], ["text", "text"],
            [[Value.text "k", Value.text "x"], [Value.text "k", Value.text "y"]]⟩)]⟩
        [Value.text "1", Value.text "2"] = (Except.ok (), s2) ∧
      self_rows_with s2.current "k" = [[Value.text "k", Value.text "2"]] :=
  claim_C8
    ⟨[("self", ⟨["key", "value"], ["text", "text"],
        [[Value.text "k", Value.text "x"], [Value.text "k", Value.text "y"]]⟩)],
     [("self", ⟨["key", "value"], ["text", "text"],
        [[Value.text "k", Value.text "x"], [Value.text "k", Value.text "y"]]⟩)]⟩
    "k" [Value.text "1", Value.text "2"] _ (by rfl) (by decide)

/-- `copy_paste` opens its donor with `client_version=None` and version
checking disabled; it succeeds whenever the donor's version is readable. -/
theorem db_open_ignore (disk : Store) (v : Value)
    (hv : get_version disk = Except.ok v) :
    db_open_existing disk Value.null true = Except.ok ⟨⟨disk, disk⟩, v⟩ := by
  unfold db_open_existing
  rw [hv]
  simp

/-- `copy_paste` with an empty donor table returns before touching the
destination: the connection state is exactly unchanged. -/
theorem copy_paste_empty_spec (s : DBState) (table : String) (sd : Store)
    (v : Value) (ts_t : Table)
    (hsv : get_version sd = Except.ok v)
    (hsrc : sd.getTable table = some ts_t)
    (hrows : ts_t.rows = []) :
    copy_paste s table sd = (Except.ok (), s) := by
  simp [copy_paste, db_open_ignore sd v hsv, get_all_rows_from_table, hsrc, hrows]

/-- `copy_paste` with a non-empty donor table: the destination table is
truncated by `_exec` (which commits) and the donor rows are inserted by
`_exec_many` (which does not commit), so the returned state has the donor
rows only in `current` while `committed` holds the truncated table. -/
theorem copy_paste_nonempty_spec (s : DBState) (table : String) (sd : Store)
    (v : Value) (ts_t dt : Table)
    (hsv : get_version sd = Except.ok v)
    (hsrc : sd.getTable table = some ts_t)
    (hdst : s.current.getTable table = some dt)
    (hne : ts_t.rows ≠ [])
    (harity : ∀ r ∈ ts_t.rows, r.length = (ts_t.rows.headD []).length)
    (hw : dt.fields.length = (ts_t.rows.headD []).length) :
    copy_paste s table sd =
      (Except.ok (),
        ⟨s.current.setTable table ⟨dt.fields, dt.types, []⟩,
         (s.current.setTable table ⟨dt.fields, dt.types, []⟩).setTable table
           ⟨dt.fields, dt.types, ts_t.rows⟩⟩) := by
  have hins : (s.current.setTable table ⟨dt.fields, dt.types, []⟩).getTable table =
      some ⟨dt.fields, dt.types, []⟩ := getTable_setTable _ _ _ _ hdst
  have hall : ts_t.rows.all
      (fun r => decide (r.length = (ts_t.rows.headD []).length)) = true := by
    rw [List.all_eq_true]
    intro r hr
    exact decide_eq_true (harity r hr)
  have hlen : ts_t.rows.length ≠ 0 := by
    simpa [List.length_eq_zero] using hne
  have harity2 : ∀ x ∈ ts_t.rows, List.length x = List.length (ts_t.rows.head?.getD []) := by
    simpa [List.headD_eq_head?_getD] using harity
  simp [copy_paste, db_open_ignore sd v hsv, get_all_rows_from_table, hsrc, hlen,
    db_exec, stmt_delete_all, hdst, db_exec_many, stmt_insert_many, hins, hw, hall]
  rw [if_pos harity2]

/-- Claim C4: when destination and donor both contain the table, an empty
donor leaves the destination state exactly unchanged, and a non-empty
donor (with rows matching the destination's column count) replaces the
destination table's rows with exactly the donor's rows. -/
theorem claim_C4 (s : DBState) (table : String) (sd : Store) (v : Value)
    (ts_t dt : Table)
    (hsv : get_version sd = Except.ok v)
    (hsrc : sd.getTable table = some ts_t)
    (hdst : s.current.getTable table = some dt) :
    (ts_t.rows = [] → copy_paste s table sd = (Except.ok (), s)) ∧
    (ts_t.rows ≠ [] →
      (∀ r ∈ ts_t.rows, r.length = (ts_t.rows.headD []).length) →
      dt.fields.length = (ts_t.rows.headD []).length →
      ∃ s2, copy_paste s table sd = (Except.ok (), s2) ∧
        s2.current.getTable table = some ⟨dt.fields, dt.types, ts_t.rows⟩) := by
  constructor
  · intro h
    exact copy_paste_empty_spec s table sd v ts_t hsv hsrc h
  · intro hne harity hw
    refine ⟨_, copy_paste_nonempty_spec s table sd v ts_t dt hsv hsrc hdst hne harity hw, ?_⟩
    exact getTable_setTable _ _ _ _ (getTable_setTable _ _ _ _ hdst)

/-- Witness for claim C4: an empty donor leaves the destination's one row
in place; a two-row donor replaces it with exactly those two rows. -/
theorem claim_C4_witness :
    copy_paste
      ⟨[("self", ⟨["key", "value"], ["text", "text"],
          [[Value.text "version", Value.text "1"]]⟩),
        ("t", ⟨["id"], ["text"], [[Value.text "x"]]⟩)],
       [("self", ⟨["key", "value"], ["text", "text"],
          [[Value.text "version", Value.text "1"]]⟩),
        ("t", ⟨["id"], ["text"], [[Value.text "x"]]⟩)]⟩ "t"
      [("self", ⟨["key", "value"], ["text", "text"],
          [[Value.text "version", Value.text "1"]]⟩),
       ("t", ⟨["id"], ["text"], []⟩)] =
      (Except.ok (),
        ⟨[("self", ⟨["key", "value"], ["text", "text"],
            [[Value.text "version", Value.text "1"]]⟩),
          ("t", ⟨["id"], ["text"], [[Value.text "x"]]⟩)],
         [("self", ⟨["key", "value"], ["text", "text"],
            [[Value.text "version", Value.text "1"]]⟩),
          ("t", ⟨["id"], ["text"], [[Value.text "x"]]⟩)]⟩) ∧
    (∃ s2, copy_paste
      ⟨[("self", ⟨["key", "value"], ["text", "text"],
          [[Value.text "version", Value.text "1"]]⟩),
        ("t", ⟨["id"], ["text"], [[Value.text "x"]]⟩)],
       [("self", ⟨["key", "value"], ["text", "text"],
          [[Value.text "version", Value.text "1"]]⟩),
        ("t", ⟨["id"], ["text"], [[Value.text "x"]]⟩)]⟩ "t"
      [("self", ⟨["key", "value"], ["text", "text"],
          [[Value.text "version", Value.text "1"]]⟩),
       ("t", ⟨["id"], ["text"], [[Value.text "y"], [Value.text "z"]]⟩)] =
      (Except.ok (), s2) ∧
      s2.current.getTable "t" =
        some ⟨["id"], ["text"], [[Value.text "y"], [Value.text "z"]]⟩) :=
  ⟨(claim_C4 _ "t" _ (Value.int 1) ⟨["id"], ["text"], []⟩
      ⟨["id"], ["text"], [[Value.text "x"]]⟩ (by rfl) (by rfl) (by rfl)).1 (by rfl),
   (claim_C4 _ "t" _ (Value.int 1) ⟨["id"], ["text"], [[Value.text "y"], [Value.text "z"]]⟩
      ⟨["id"], ["text"], [[Value.text "x"]]⟩ (by rfl) (by rfl) (by rfl)).2
      (by decide) (by decide) (by rfl)⟩

/-- Counterexample to claim C2: a successful `copy_paste` from a one-row
donor returns with the connection's committed (on-disk) contents differing
from its current (in-memory) contents — the bulk insert ran through
`_exec_many`, which never commits. -/
theorem claim_C2_counterexample :
    (copy_paste
      ⟨[("self", ⟨["key", "value"], ["text", "text"],
          [[Value.text "version", Value.text "1"]]⟩),
        ("t", ⟨["id"], ["text"], [[Value.text "x"]]⟩)],
       [("self", ⟨["key", "value"], ["text", "text"],
          [[Value.text "version", Value.text "1"]]⟩),
        ("t", ⟨["id"], ["text"], [[Value.text "x"]]⟩)]⟩ "t"
      [("self", ⟨["key", "value"], ["text", "text"],
          [[Value.text "version", Value.text "1"]]⟩),
       ("t", ⟨["id"], ["text"], [[Value.text "y"]]⟩)]).1 = Except.ok () ∧
    (copy_paste
      ⟨[("self", ⟨["key", "value"], ["text", "text"],
          [[Value.text "version", Value.text "1"]]⟩),
        ("t", ⟨["id"], ["text"], [[Value.text "x"]]⟩)],
       [("self", ⟨["key", "value"], ["text", "text"],
          [[Value.text "version", Value.text "1"]]⟩),
        ("t", ⟨["id"], ["text"], [[Value.text "x"]]⟩)]⟩ "t"
      [("self", ⟨["key", "value"], ["text", "text"],
          [[Value.text "version", Value.text "1"]]⟩),
       ("t", ⟨["id"], ["text"], [[Value.text "y"]]⟩)]).2.committed ≠
    (copy_paste
      ⟨[("self", ⟨["key", "value"], ["text", "text"],
          [[Value.text "version", Value.text "1"]]⟩),
        ("t", ⟨["id"], ["text"], [[Value.text "x"]]⟩)],
       [("self", ⟨["key", "value"], ["text", "text"],
          [[Value.text "version", Value.text "1"]]⟩),
        ("t", ⟨["id"], ["text"], [[Value.text "x"]]⟩)]⟩ "t"
      [("self", ⟨["key", "value"], ["text", "text"],
          [[Value.text "version", Value.text "1"]]⟩),
       ("t", ⟨["id"], ["text"], [[Value.text "y"]]⟩)]).2.current :=
  ⟨rfl, by decide⟩

theorem db_exec_balanced (s : DBState) (stmt : Store → Except PyErr Store)
    (s' : DBState) (h : db_exec s stmt = (Except.ok (), s')) :
    s'.committed = s'.current := by
  unfold db_exec at h
  cases hm : stmt s.current with
  | error e =>
    rw [hm] at h
    simp at h
  | ok cur =>
    rw [hm] at h
    simp only [Prod.mk.injEq] at h
    rw [← h.2]

theorem create_table_balanced (s : DBState) (n : String)
    (fields types : List String) (s' : DBState)
    (h : create_table s n fields types = (Except.ok (), s')) :
    s'.committed = s'.current := by
  unfold create_table at h
  split at h
  · simp at h
  · cases hm : db_exec s (stmt_create_table n fields types) with
    | mk e1 s1 =>
      rw [hm] at h
      cases e1 with
      | error e => simp at h
      | ok u =>
        simp only [Prod.mk.injEq] at h
        rw [← h.2]
        rfl

theorem set_meta_value_balanced (s : DBState) (k : String) (v : Value)
    (s' : DBState) (h : set_meta_value s k v = (Except.ok (), s')) :
    s'.committed = s'.current := by
  unfold set_meta_value at h
  cases hm : db_exec s (stmt_insert_self k v) with
  | mk e1 s1 =>
    rw [hm] at h
    cases e1 with
    | error e => simp at h
    | ok u =>
      simp only [Prod.mk.injEq] at h
      rw [← h.2]
      rfl

theorem remove_meta_balanced (s : DBState) (k : String)
    (s' : DBState) (h : remove_meta_key_value_pair s k = (Except.ok (), s')) :
    s'.committed = s'.current := by
  unfold remove_meta_key_value_pair at h
  cases hm : db_exec s (stmt_delete_self_key k) with
  | mk e1 s1 =>
    rw [hm] at h
    cases e1 with
    | error e => simp at h
    | ok u =>
      simp only [Prod.mk.injEq] at h
      rw [← h.2]
      rfl

theorem update_meta_balanced (s : DBState) (k : String) (v : Value)
    (s' : DBState) (h : update_meta_value s k v = (Except.ok (), s')) :
    s'.committed = s'.current := by
  unfold update_meta_value at h
  cases hm : remove_meta_key_value_pair s k with
  | mk e1 s1 =>
    rw [hm] at h
    cases e1 with
    | error e => simp at h
    | ok u => exact set_meta_value_balanced s1 k v s' h

theorem set_version_balanced (s : DBState) (v : Value)
    (s' : DBState) (h : set_version s v = (Except.ok (), s')) :
    s'.committed = s'.current := by
  unfold set_version at h
  cases hm : set_meta_value s "version" v with
  | mk e1 s1 =>
    rw [hm] at h
    cases e1 with
    | error e => simp at h
    | ok u =>
      simp only [Prod.mk.injEq] at h
      rw [← h.2]
      rfl

/-- Claim C2, amended: every mutating operation that goes through `_exec`
(`create_table`, `drop_table`, `set_meta_value`,
`remove_meta_key_value_pair`, `update_meta_value`, `set_version`) commits
immediately — a successful call returns with committed = current.
`copy_paste` with an empty donor is a pure no-op; with a non-empty donor
only the truncation is committed, and the bulk insert (run through
`_exec_many`, which never commits) is left uncommitted: the returned state
holds the donor rows in memory while the committed contents hold the
truncated table. -/
theorem claim_C2_amended :
    (∀ (s : DBState) (n : String) (fields types : List String) (s' : DBState),
        create_table s n fields types = (Except.ok (), s') →
        s'.committed = s'.current) ∧
    (∀ (s : DBState) (n : String) (s' : DBState),
        drop_table s n = (Except.ok (), s') → s'.committed = s'.current) ∧
    (∀ (s : DBState) (k : String) (v : Value) (s' : DBState),
        set_meta_value s k v = (Except.ok (), s') → s'.committed = s'.current) ∧
    (∀ (s : DBState) (k : String) (s' : DBState),
        remove_meta_key_value_pair s k = (Except.ok (), s') →
        s'.committed = s'.current) ∧
    (∀ (s : DBState) (k : String) (v : Value) (s' : DBState),
        update_meta_value s k v = (Except.ok (), s') → s'.committed = s'.current) ∧
    (∀ (s : DBState) (v : Value) (s' : DBState),
        set_version s v = (Except.ok (), s') → s'.committed = s'.current) ∧
    (∀ (s : DBState) (table : String) (sd : Store) (v : Value) (ts_t : Table),
        get_version sd = Except.ok v → sd.getTable table = some ts_t →
        ts_t.rows = [] → copy_paste s table sd = (Except.ok (), s)) ∧
    (∀ (s : DBState) (table : String) (sd : Store) (v : Value) (ts_t dt : Table),
        get_version sd = Except.ok v → sd.getTable table = some ts_t →
        s.current.getTable table = some dt → ts_t.rows ≠ [] →
        (∀ r ∈ ts_t.rows, r.length = (ts_t.rows.headD []).length) →
        dt.fields.length = (ts_t.rows.headD []).length →
        ∃ s2, copy_paste s table sd = (Except.ok (), s2) ∧
          s2.committed.getTable table = some ⟨dt.fields, dt.types, []⟩ ∧
          s2.current.getTable table = some ⟨dt.fields, dt.types, ts_t.rows⟩) := by
  refine ⟨create_table_balanced, ?_, set_meta_value_balanced, remove_meta_balanced,
    update_meta_balanced, set_version_balanced, ?_, ?_⟩
  · intro s n s' h
    exact db_exec_balanced s (stmt_drop_table n) s' h
  · intro s table sd v ts_t hsv hsrc hrows
    exact copy_paste_empty_spec s table sd v ts_t hsv hsrc hrows
  · intro s table sd v ts_t dt hsv hsrc hdst hne harity hw
    refine ⟨_, copy_paste_nonempty_spec s table sd v ts_t dt hsv hsrc hdst hne harity hw,
      getTable_setTable _ _ _ _ hdst, ?_⟩
    exact getTable_setTable _ _ _ _ (getTable_setTable _ _ _ _ hdst)

/-- Witness for the amended claim C2: a concrete committed `set_meta_value`
call, and a concrete non-empty `copy_paste` whose truncation is committed
while its inserted row is only in memory. -/
theorem claim_C2_amended_witness :
    ((⟨[("self", ⟨["key", "value"], ["text", "text"],
        [[Value.text "k", Value.text "v"]]⟩)],
      [("self", ⟨["key", "value"], ["text", "text"],
        [[Value.text "k", Value.text "v"]]⟩)]⟩ : DBState).committed =
     (⟨[("self", ⟨["key", "value"], ["text", "text"],
        [[Value.text "k", Value.text "v"]]⟩)],
      [("self", ⟨["key", "value"], ["text", "text"],
        [[Value.text "k", Value.text "v"]]⟩)]⟩ : DBState).current) ∧
    (∃ s2, copy_paste
        ⟨[("self", ⟨["key", "value"], ["text", "text"],
            [[Value.text "version", Value.text "1"]]⟩),
          ("u", ⟨["id"], ["text"], [[Value.text "x"]]⟩)],
         [("self", ⟨["key", "value"], ["text", "text"],
            [[Value.text "version", Value.text "1"]]⟩),
          ("u", ⟨["id"], ["text"], [[Value.text "x"]]⟩)]⟩ "u"
        [("self", ⟨["key", "value"], ["text", "text"],
            [[Value.text "version", Value.text "1"]]⟩),
         ("u", ⟨["id"], ["text"], [[Value.text "w"]]⟩)] = (Except.ok (), s2) ∧
      s2.committed.getTable "u" = some ⟨["id"], ["text"], []⟩ ∧
      s2.current.getTable "u" = some ⟨["id"], ["text"], [[Value.text "w"]]⟩) :=
  ⟨claim_C2_amended.2.2.1
      ⟨[("self", ⟨["key", "value"], ["text", "text"], []⟩)],
       [("self", ⟨["key", "value"], ["text", "text"], []⟩)]⟩ "k" (Value.text "v")
      ⟨[("self", ⟨["key", "value"], ["text", "text"],
          [[Value.text "k", Value.text "v"]]⟩)],
       [("self", ⟨["key", "value"], ["text", "text"],
          [[Value.text "k", Value.text "v"]]⟩)]⟩ (by rfl),
   claim_C2_amended.2.2.2.2.2.2.2
      ⟨[("self", ⟨["key", "value"], ["text", "text"],
          [[Value.text "version", Value.text "1"]]⟩),
        ("u", ⟨["id"], ["text"], [[Value.text "x"]]⟩)],
       [("self", ⟨["key", "value"], ["text", "text"],
          [[Value.text "version", Value.text "1"]]⟩),
        ("u", ⟨["id"], ["text"], [[Value.text "x"]]⟩)]⟩ "u"
      [("self", ⟨["key", "value"], ["text", "text"],
          [[Value.text "version", Value.text "1"]]⟩),
       ("u", ⟨["id"], ["text"], [[Value.text "w"]]⟩)]
      (Value.int 1) ⟨["id"], ["text"], [[Value.text "w"]]⟩
      ⟨["id"], ["text"], [[Value.text "x"]]⟩
      (by rfl) (by rfl) (by rfl) (by decide) (by decide) (by rfl)⟩

/-- `DB.get_table_structure` (db.py lines 181-183): the ordered column
names of a table. -/
def get_table_structure (st : Store) (table : String) :
    Except PyErr (List String) :=
  match st.getTable table with
  | none => Except.error PyErr.backendError
  | some t => Except.ok t.fields

/-- Python `d[k] = v` on a dict kept as an insertion-ordered association
list: overwrite in place if the key exists, else append. -/
def pyDictSet {κ α : Type} [DecidableEq κ] (d : List (κ × α)) (k : κ) (v : α) :
    List (κ × α) :=
  if d.any (fun p => decide (p.1 = k)) then
    d.map (fun p => if p.1 = k then (k, v) else p)
  else d ++ [(k, v)]

/-- The entry-building loop of `get_table_as_dict` (db.py lines 232-233):
`entry[table_structure[i]] = row[i]` over the retained column indexes;
an out-of-range index raises `IndexError`. -/
def build_entry (ts : List String) (row : Row) :
    List (String × Value) → List Nat → Except PyErr (List (String × Value))
  | acc, [] => Except.ok acc
  | acc, i :: rest =>
    match row[i]? with
    | none => Except.error PyErr.indexError
    | some v =>
      match ts[i]? with
      | none => Except.error PyErr.indexError
      | some name => build_entry ts row (pyDictSet acc name v) rest

/-- The `columns_of_interest` pruning loop (db.py lines 201-204):
`columns_to_return.remove(table_structure.index(col))` for every
structural column (beyond column 0) not in the set; Python's
`list.remove` raises `ValueError` when the value is absent. -/
def remove_cols (ts coi : List String) :
    List Nat → List String → Except PyErr (List Nat)
  | ctr, [] => Except.ok ctr
  | ctr, col :: rest =>
    if col ∈ coi then remove_cols ts coi ctr rest
    else
      if ts.indexOf col ∈ ctr then
        remove_cols ts coi (ctr.erase (ts.indexOf col)) rest
      else Except.error PyErr.valueError

/-- The row loop of `get_table_as_dict` (db.py lines 220-238).  The
`keys_of_interest` set is threaded through; crucially the code guards the
whole filter with `if keys_of_interest:`, so once the set is exhausted it
is falsy and every remaining row is kept. -/
def mat_rows (ts : List String) (idxs : List Nat) (string_the_key : Bool) :
    List (Value × List (String × Value)) → List Value → List Row →
    Except PyErr (List (Value × List (String × Value)))
  | acc, _, [] => Except.ok acc
  | acc, koi, row :: rest =>
    if koi.length ≠ 0 then
      match row[0]? with
      | none => Except.error PyErr.indexError
      | some k0 =>
        if k0 ∈ koi then
          match build_entry ts row [] (idxs.drop 1) with
          | Except.error e => Except.error e
          | Except.ok entry =>
              mat_rows ts idxs string_the_key
                (pyDictSet acc (if string_the_key then Value.text (pyStr k0) else k0)
                  entry)
                (koi.erase k0) rest
        else mat_rows ts idxs string_the_key acc koi rest
    else
      match build_entry ts row [] (idxs.drop 1) with
      | Except.error e => Except.error e
      | Except.ok entry =>
        match row[0]? with
        | none => Except.error PyErr.indexError
        | some k0 =>
            mat_rows ts idxs string_the_key
              (pyDictSet acc (if string_the_key then Value.text (pyStr k0) else k0)
                entry)
              koi rest

/-- The value of `get_table_as_dict`: the materialized dict and the final
contents of the `table_structure` variable.  When the caller supplied a
non-empty structure list, the variable is never rebound, so
`structAfter` is the content of the caller's own list object after the
call (the code mutates it in place with `list.remove`). -/
structure TableAsDictResult where
  result : List (Value × List (String × Value))
  structAfter : List String
  deriving DecidableEq, Repr

/-- `DB.get_table_as_dict` (db.py lines 190-240). -/
def get_table_as_dict (st : Store) (table : String)
    (table_structure : Option (List String)) (string_the_key : Bool)
    (columns_of_interest : Option (List String))
    (keys_of_interest : Option (List Value))
    (omit_parent_column : Bool) (error_if_no_data : Bool) :
    Except PyErr TableAsDictResult :=
  match (match table_structure with
         | some l => if l.length = 0 then get_table_structure st table else Except.ok l
         | none => get_table_structure st table) with
  | Except.error e => Except.error e
  | Except.ok ts0 =>
    let ctr0 := List.range ts0.length
    let ts1 := if omit_parent_column ∧ "__parent__" ∈ ts0 then
        ts0.erase "__parent__" else ts0
    let ctr1 := if omit_parent_column ∧ "__parent__" ∈ ts0 then
        ctr0.erase (ts0.indexOf "__parent__") else ctr0
    match (match columns_of_interest with
           | some coi =>
               if coi.length = 0 then Except.ok ctr1
               else remove_cols ts1 coi ctr1 (ts1.drop 1)
           | none => Except.ok ctr1) with
    | Except.error e => Except.error e
    | Except.ok ctr2 =>
      if ctr2.length = 1 then
        (if error_if_no_data then Except.error PyErr.configError
         else Except.ok ⟨[], ts1⟩)
      else
        let koi0 := match keys_of_interest with
          | none => []
          | some l => if l.length = 0 then [] else l.dedup
        match get_all_rows_from_table st table with
        | Except.error e => Except.error e
        | Except.ok rows =>
          match mat_rows ts1 ctr2 string_the_key [] koi0 rows with
          | Except.error e => Except.error e
          | Except.ok res => Except.ok ⟨res, ts1⟩

/-- Claim C1 fails on the code (the claim itself states the intended
behavior, which the code's own comment describes as a mere lookup
optimization): on rows `("a","ACGT")`, `("b","TTTT")` with
`keys_of_interest={"a"}`, once `"a"` is consumed the set is empty and
therefore falsy, the filter switches off, and the row `"b"` is ALSO
returned — the result holds both entries, not only `"a"`. -/
theorem claim_C1_code_eval :
    get_table_as_dict
      [("t", ⟨["id", "seq"], ["text", "text"],
        [[Value.text "a", Value.text "ACGT"], [Value.text "b", Value.text "TTTT"]]⟩)]
      "t" none false none (some [Value.text "a"]) false true =
    Except.ok ⟨[(Value.text "a", [("seq", Value.text "ACGT")]),
                (Value.text "b", [("seq", Value.text "TTTT")])], ["id", "seq"]⟩ := by
  rfl

/-- Counterexample to claim C5: with `omit_parent_column` and `__parent__`
in a non-final position, the retained original column indexes run past the
shortened structure list, and the materializer raises `IndexError` instead
of producing the aligned entry `{"seq": "ACGT"}` the claim promises. -/
theorem claim_C5_counterexample :
    get_table_as_dict
      [("t", ⟨["id", "__parent__", "seq"], ["text", "text", "text"],
        [[Value.text "a", Value.text "p", Value.text "ACGT"]]⟩)]
      "t" none false none none true true = Except.error PyErr.indexError := by
  rfl

/-- Claim C10: when the caller supplies a non-empty `table_structure` list
containing `__parent__` and sets `omit_parent_column`, the function never
rebinds the variable (the falsy-check only replaces `None`/empty lists),
so every `list.remove` acts on the caller's own list object: after any
successful call the caller's list has `__parent__` removed — it is not a
copy, and the list really changed. -/
theorem claim_C10 (st : Store) (table : String) (l : List String)
    (string_the_key : Bool) (coi : Option (List String))
    (koi : Option (List Value)) (eflag : Bool) (res : TableAsDictResult)
    (hne : l ≠ []) (hmem : "__parent__" ∈ l)
    (h : get_table_as_dict st table (some l) string_the_key coi koi true eflag =
      Except.ok res) :
    res.structAfter = l.erase "__parent__" ∧ res.structAfter ≠ l := by
  have hlen0 : ¬ l.length = 0 := by simpa [List.length_eq_zero] using hne
  have hsa : res.structAfter = l.erase "__parent__" := by
    simp only [get_table_as_dict, hlen0, if_false, hmem, and_true, if_true,
      true_and, ite_true] at h
    split at h
    · exact absurd h (by simp)
    · split at h
      · split at h
        · exact absurd h (by simp)
        · cases h
          rfl
      · split at h
        · exact absurd h (by simp)
        · split at h
          · exact absurd h (by simp)
          · cases h
            rfl
  refine ⟨hsa, ?_⟩
  intro heq
  have hL : (l.erase "__parent__").length = l.length - 1 :=
    List.length_erase_of_mem hmem
  have hpos : 0 < l.length := List.length_pos.mpr hne
  rw [hsa] at heq
  have := congrArg List.length heq
  omega

/-- Witness for claim C10: the caller's list `["id","x","__parent__"]`
comes back as `["id","x"]`. -/
theorem claim_C10_witness :
    (⟨[], ["id", "x"]⟩ : TableAsDictResult).structAfter =
      (["id", "x", "__parent__"] : List String).erase "__parent__" ∧
    (⟨[], ["id", "x"]⟩ : TableAsDictResult).structAfter ≠ ["id", "x", "__parent__"] :=
  claim_C10 [("t", ⟨["id", "x", "__parent__"], ["text", "text", "text"], []⟩)] "t"
    ["id", "x", "__parent__"] false none none true ⟨[], ["id", "x"]⟩
    (by decide) (by decide) (by rfl)

theorem getElem?_eq_some_getD {α : Type} (l : List α) (n : Nat) (d : α)
    (h : n < l.length) : l[n]? = some (l.getD n d) := by
  rw [List.getElem?_eq_getElem h, List.getD_eq_getElem?_getD,
    List.getElem?_eq_getElem h]
  rfl

theorem pyDictSet_fresh {κ α : Type} [DecidableEq κ] (d : List (κ × α))
    (k : κ) (v : α) (h : ∀ p ∈ d, p.1 ≠ k) : pyDictSet d k v = d ++ [(k, v)] := by
  have hfalse : d.any (fun p => decide (p.1 = k)) = false := by
    rw [List.any_eq_false]
    intro p hp
    simpa using h p hp
  simp [pyDictSet, hfalse]

/-- When the retained indexes are in range and name distinct columns, the
entry loop pairs each column name with that same column's row value. -/
theorem build_entry_spec (ts : List String) (row : Row) (idxs : List Nat) :
    ∀ (acc : List (String × Value)),
    (∀ i ∈ idxs, i < ts.length ∧ i < row.length) →
    (idxs.map (fun i => ts.getD i "")).Nodup →
    (∀ i ∈ idxs, ∀ p ∈ acc, p.1 ≠ ts.getD i "") →
    build_entry ts row acc idxs =
      Except.ok (acc ++ idxs.map (fun i => (ts.getD i "", row.getD i Value.null))) := by
  induction idxs with
  | nil =>
    intro acc _ _ _
    simp [build_entry]
  | cons i rest ih =>
    intro acc hin hnd hfresh
    obtain ⟨hts, hrow⟩ := hin i (List.mem_cons_self i rest)
    have hnd' : (rest.map (fun j => ts.getD j "")).Nodup :=
      (List.nodup_cons.mp (by simpa using hnd)).2
    have hhead : ts.getD i "" ∉ rest.map (fun j => ts.getD j "") :=
      (List.nodup_cons.mp (by simpa using hnd)).1
    have hfresh' : ∀ j ∈ rest, ∀ p ∈ acc ++ [(ts.getD i "", row.getD i Value.null)],
        p.1 ≠ ts.getD j "" := by
      intro j hj p hp
      rcases List.mem_append.mp hp with hp | hp
      · exact hfresh j (List.mem_cons_of_mem _ hj) p hp
      · have hp1 : p.1 = ts.getD i "" := by
          have hp' : p = (ts.getD i "", row.getD i Value.null) := by simpa using hp
          rw [hp']
        rw [hp1]
        intro hcontra
        exact hhead (by rw [hcontra]; exact List.mem_map_of_mem (fun j => ts.getD j "") hj)
    have hrec := ih (acc ++ [(ts.getD i "", row.getD i Value.null)])
      (fun j hj => hin j (List.mem_cons_of_mem _ hj)) hnd' hfresh'
    unfold build_entry
    rw [getElem?_eq_some_getD row i Value.null hrow,
      getElem?_eq_some_getD ts i "" hts]
    dsimp only
    rw [pyDictSet_fresh acc _ _ (fun p hp => hfresh i (List.mem_cons_self i rest) p hp),
      hrec]
    simp

/-- The row loop with no key filtering and no key stringification: with
per-row entries given and distinct keys, the result is the accumulated
dict extended by one entry per row, keyed by the row's first column. -/
theorem mat_rows_plain (ts : List String) (idxs : List Nat)
    (e : Row → List (String × Value)) (rows : List Row) :
    ∀ (acc : List (Value × List (String × Value))),
    (∀ row ∈ rows, build_entry ts row [] (idxs.drop 1) = Except.ok (e row)) →
    (∀ row ∈ rows, row ≠ []) →
    (rows.map (fun r => r.getD 0 Value.null)).Nodup →
    (∀ row ∈ rows, ∀ p ∈ acc, p.1 ≠ row.getD 0 Value.null) →
    mat_rows ts idxs false acc [] rows =
      Except.ok (acc ++ rows.map (fun row => (row.getD 0 Value.null, e row))) := by
  induction rows with
  | nil =>
    intro acc _ _ _ _
    simp [mat_rows]
  | cons row rest ih =>
    intro acc hentry hne hnd hfresh
    have hrow0 : row[0]? = some (row.getD 0 Value.null) :=
      getElem?_eq_some_getD row 0 Value.null
        (List.length_pos.mpr (hne row (List.mem_cons_self row rest)))
    have hnd' : (rest.map (fun r => r.getD 0 Value.null)).Nodup :=
      (List.nodup_cons.mp (by simpa using hnd)).2
    have hhead : row.getD 0 Value.null ∉ rest.map (fun r => r.getD 0 Value.null) :=
      (List.nodup_cons.mp (by simpa using hnd)).1
    have hfresh' : ∀ r ∈ rest,
        ∀ p ∈ acc ++ [(row.getD 0 Value.null, e row)], p.1 ≠ r.getD 0 Value.null := by
      intro r hr p hp
      rcases List.mem_append.mp hp with hp | hp
      · exact hfresh r (List.mem_cons_of_mem _ hr) p hp
      · have hp1 : p.1 = row.getD 0 Value.null := by
          have hp' : p = (row.getD 0 Value.null, e row) := by simpa using hp
          rw [hp']
        rw [hp1]
        intro hcontra
        exact hhead
          (by rw [hcontra]; exact List.mem_map_of_mem (fun r => r.getD 0 Value.null) hr)
    have hrec := ih (acc ++ [(row.getD 0 Value.null, e row)])
      (fun r hr => hentry r (List.mem_cons_of_mem _ hr))
      (fun r hr => hne r (List.mem_cons_of_mem _ hr)) hnd' hfresh'
    unfold mat_rows
    rw [if_neg (by simp)]
    rw [hentry row (List.mem_cons_self row rest), hrow0]
    dsimp only
    simp only [Bool.false_eq_true, if_false]
    rw [pyDictSet_fresh acc _ _
      (fun p hp => hfresh row (List.mem_cons_self row rest) p hp), hrec]
    simp

/-- Claim C5, amended: the materializer pairs each surviving column name
with that same column's row value provided the omitted `__parent__`
column is the LAST column (at any earlier position the shifted indexes
run off the shortened structure and the call raises `IndexError`
instead).  Here: a table whose structure is `base ++ ["__parent__"]`
with distinct names, full-width rows and distinct keys, materialized with
`omit_parent_column` and no other filtering, yields one entry per row
mapping `base[i]` to `row[i]` for every non-key surviving column, with
`__parent__` excluded from structure and entries alike. -/
theorem claim_C5_amended (st : Store) (table : String) (t : Table)
    (base : List String) (eflag : Bool)
    (ht : st.getTable table = some t)
    (hfields : t.fields = base ++ ["__parent__"])
    (hnp : "__parent__" ∉ base)
    (hnodup : base.Nodup)
    (hlen : 2 ≤ base.length)
    (hwidth : ∀ row ∈ t.rows, row.length = base.length + 1)
    (hkeys : (t.rows.map (fun r => r.getD 0 Value.null)).Nodup) :
    get_table_as_dict st table none false none none true eflag =
      Except.ok ⟨t.rows.map (fun row =>
          (row.getD 0 Value.null,
           ((List.range base.length).drop 1).map
             (fun i => (base.getD i "", row.getD i Value.null)))),
        base⟩ := by
  have hts : get_table_structure st table = Except.ok (base ++ ["__parent__"]) := by
    simp [get_table_structure, ht, hfields]
  have hmem : "__parent__" ∈ base ++ ["__parent__"] := by simp
  have herase : (base ++ ["__parent__"]).erase "__parent__" = base := by
    rw [List.erase_append_right _ hnp]
    simp
  have hidx : (base ++ ["__parent__"]).indexOf "__parent__" = base.length := by
    rw [List.indexOf_append_of_not_mem hnp]
    simp
  have hrange : (List.range (base.length + 1)).erase base.length =
      List.range base.length := by
    rw [List.range_succ, List.erase_append_right _ List.not_mem_range_self]
    simp
  have hentry : ∀ row ∈ t.rows,
      build_entry base row [] ((List.range base.length).drop 1) =
        Except.ok (((List.range base.length).drop 1).map
          (fun i => (base.getD i "", row.getD i Value.null))) := by
    intro row hrow
    have hin : ∀ i ∈ (List.range base.length).drop 1,
        i < base.length ∧ i < row.length := by
      intro i hi
      have h1 : i < base.length := List.mem_range.mp (List.mem_of_mem_drop hi)
      refine ⟨h1, ?_⟩
      rw [hwidth row hrow]
      omega
    have hndidx : ((List.range base.length).drop 1).Nodup :=
      (List.drop_sublist 1 _).nodup (List.nodup_range _)
    have hnd : (((List.range base.length).drop 1).map
        (fun i => base.getD i "")).Nodup := by
      refine List.Nodup.map_on ?_ hndidx
      intro i hi j hj hij
      have hi' : i < base.length := List.mem_range.mp (List.mem_of_mem_drop hi)
      have hj' : j < base.length := List.mem_range.mp (List.mem_of_mem_drop hj)
      rw [List.getD_eq_getElem _ _ hi', List.getD_eq_getElem _ _ hj'] at hij
      exact (List.Nodup.getElem_inj_iff hnodup).mp hij
    have := build_entry_spec base row ((List.range base.length).drop 1) [] hin hnd
      (by intro i _ p hp; simp at hp)
    simpa using this
  have hrowsne : ∀ row ∈ t.rows, row ≠ [] := by
    intro row hrow hcon
    have := hwidth row hrow
    rw [hcon] at this
    simp at this
  have hmat := mat_rows_plain base (List.range base.length)
    (fun row => ((List.range base.length).drop 1).map
      (fun i => (base.getD i "", row.getD i Value.null)))
    t.rows [] hentry hrowsne hkeys (by intro r _ p hp; simp at hp)
  have hrowsok : get_all_rows_from_table st table = Except.ok t.rows := by
    simp [get_all_rows_from_table, ht]
  have hne1 : ¬ (List.range base.length).length = 1 := by
    rw [List.length_range]
    omega
  simp only [get_table_as_dict, hts, List.length_append, List.length_singleton,
    hmem, and_true, if_true, true_and, ite_true, hidx, hrange, herase, hrowsok,
    List.length_nil, hne1, if_false, hmat]
  simp

/-- Witness for the amended claim C5: `__parent__` last, one row — the
returned entry pairs `c1` with its own value and omits `__parent__`. -/
theorem claim_C5_witness :
    get_table_as_dict
      [("t", ⟨["id", "c1", "__parent__"], ["text", "text", "text"],
        [[Value.text "a", Value.text "v", Value.text "p"]]⟩)]
      "t" none false none none true true =
    Except.ok ⟨[(Value.text "a", [("c1", Value.text "v")])], ["id", "c1"]⟩ :=
  claim_C5_amended
    [("t", ⟨["id", "c1", "__parent__"], ["text", "text", "text"],
      [[Value.text "a", Value.text "v", Value.text "p"]]⟩)]
    "t"
    ⟨["id", "c1", "__parent__"], ["text", "text", "text"],
      [[Value.text "a", Value.text "v", Value.text "p"]]⟩
    ["id", "c1"] true
    (by rfl) (by rfl) (by decide) (by decide) (by decide) (by decide) (by decide)

/-- One parsed BLAST Hsp record (sequencefeatures.py lines 195-209): the
fields read out of the XML hit report. -/
structure HspRec where
  query_from : Int
  query_to : Int
  hit_from : Int
  hit_to : Int
  qseq : List Char
  hseq : List Char
  align_len : Int
  gaps : Int
  identity : Int
  deriving DecidableEq, Repr

/-- The `Palindrome` record populated by `Palindromes.find`. -/
structure Palindrome where
  first_start : Int
  first_end : Int
  first_sequence : List Char
  second_start : Int
  second_end : Int
  second_sequence : List Char
  length : Int
  num_gaps : Int
  num_mismatches : Int
  midline : List Char
  distance : Int
  deriving DecidableEq, Repr

/-- The midline comprehension (sequencefeatures.py line 210): indexes the
second sequence at every position of the first, so it raises `IndexError`
(here `none`) when the second is shorter. -/
def pyMidline (q h : List Char) : Option (List Char) :=
  if q.length ≤ h.length then
    some ((q.zip h).map (fun p => if p.1 = p.2 then '|' else 'x'))
  else none

/-- Building the `Palindrome` from one Hsp record, exactly the
assignments of sequencefeatures.py lines 195-211 (the coordinate fields
are set before the duplicate check, the remaining ones after it; an
aborted midline aborts the whole call, so bundling them is observably
the same). -/
def mkPalindrome (r : HspRec) : Option Palindrome :=
  match pyMidline r.qseq r.hseq with
  | none => none
  | some ml =>
      some { first_start := r.query_from - 1
             first_end := r.query_to
             first_sequence := r.qseq
             second_start := r.hit_to - 1
             second_end := r.hit_from
             second_sequence := r.hseq
             length := r.align_len
             num_gaps := r.gaps
             num_mismatches := r.align_len - r.identity
             midline := ml
             distance := (r.hit_to - 1) - (r.query_from - 1) }

/-- Python `set.add` on the insertion-ordered model of
`positions_processed`. -/
def pySetAdd (s : List Int) (x : Int) : List Int :=
  if x ∈ s then s else s ++ [x]

/-- One iteration of the Hsp loop of `Palindromes.find`
(sequencefeatures.py lines 192-227): state is
(`positions_processed`, palindromes appended so far).  The duplicate
check tests `p.first_start` (the query-start), but the coordinate then
recorded is `p.second_end` (the hit-end). -/
def hsp_step (acc : List Int × List Palindrome) (r : HspRec) :
    Option (List Int × List Palindrome) :=
  if r.query_from - 1 ∈ acc.1 then some acc
  else
    match mkPalindrome r with
    | none => none
    | some p => some (pySetAdd acc.1 r.hit_from, acc.2 ++ [p])

/-- The whole parse loop of `Palindromes.find` over the flattened sequence
of Hsp records of the hit report, starting from the empty
`positions_processed` set and an empty palindrome list. -/
def palindromes_find (records : List HspRec) :
    Option (List Int × List Palindrome) :=
  records.foldlM hsp_step ([], [])

/-- Claim C9: in the parse loop, a record whose query-start
(`first_start = query_from - 1`) is already in `positions_processed` is
skipped — state unchanged, no palindrome appended; an accepted record
appends its palindrome and records its hit-end coordinate
(`p.second_end`, i.e. `hit_from`) — not its query-start — into the seen
set. -/
theorem claim_C9 (seen : List Int) (out : List Palindrome) (r : HspRec) :
    (r.query_from - 1 ∈ seen → hsp_step (seen, out) r = some (seen, out)) ∧
    (r.query_from - 1 ∉ seen → ∀ p, mkPalindrome r = some p →
      hsp_step (seen, out) r = some (pySetAdd seen p.second_end, out ++ [p])) := by
  constructor
  · intro h
    simp [hsp_step, h]
  · intro h p hp
    have hse : p.second_end = r.hit_from := by
      unfold mkPalindrome at hp
      cases hm : pyMidline r.qseq r.hseq with
      | none =>
        rw [hm] at hp
        simp at hp
      | some ml =>
        rw [hm] at hp
        injection hp with hp'
        rw [← hp']
    simp [hsp_step, h, hp, hse]

/-- Witness for claim C9: a record with query-start 3 is skipped when 3
was seen; accepted from a fresh state, it contributes its palindrome and
records hit-end 20 (not query-start 3). -/
theorem claim_C9_witness :
    hsp_step ([3], []) ⟨4, 10, 20, 12, ['A'], ['T'], 7, 0, 7⟩ = some ([3], []) ∧
    hsp_step ([], []) ⟨4, 10, 20, 12, ['A'], ['T'], 7, 0, 7⟩ =
      some ([20], [⟨3, 10, ['A'], 11, 20, ['T'], 7, 0, 0, ['x'], 8⟩]) :=
  ⟨(claim_C9 [3] [] ⟨4, 10, 20, 12, ['A'], ['T'], 7, 0, 7⟩).1 (by decide),
   (claim_C9 [] [] ⟨4, 10, 20, 12, ['A'], ['T'], 7, 0, 7⟩).2 (by decide)
     ⟨3, 10, ['A'], 11, 20, ['T'], 7, 0, 0, ['x'], 8⟩ (by rfl)⟩
